import Mathlib

/-!
Shallow embedding of the Spark ETL pipeline in `src/etl.py` (functions
`process_song_data` and `process_log_data`), together with proofs about the
derived `songs`, `artists`, `users`, `time` and `songplays` tables.

Relations are modelled as Lean lists of records; the dataframe operations
(`where`, `selectExpr`, `dropDuplicates`, window `row_number`, `withColumn`,
left `join`) are modelled as list transformations.  JSON string fields are
`String`, the float fields compared by the join (`length`/`duration`) are
`Rat` (no arithmetic is performed on them, only exact equality, so the exact
value semantics coincide), and `ts` (epoch milliseconds) is `Nat`.
`datetime.fromtimestamp` depends on the process local time zone; it is
modelled here with the time zone fixed to UTC.
-/

namespace Etl

/-! ### Calendar arithmetic (UTC)

Helpers for the date/time functions applied by `process_log_data`
(`hour`, `dayofmonth`, `weekofyear`, `month`, `year`, `date_format 'EEEE'`).
The civil-calendar conversions follow the standard era-based algorithms,
restricted to nonnegative epoch days (all inputs are epoch milliseconds
`ts : Nat`, hence dates from 1970 on). -/

/-- Gregorian leap-year test. -/
def isLeap (y : Nat) : Bool :=
  (y % 4 == 0 && y % 100 != 0) || (y % 400 == 0)

/-- A Spark SQL DATE value: a civil calendar date with no time-of-day part. -/
structure SparkDate where
  year : Nat
  month : Nat
  day : Nat
deriving DecidableEq

/-- Civil date from a count of days since 1970-01-01 (era-based algorithm,
nonnegative days only). -/
def civilFromDays (z : Nat) : SparkDate :=
  let z' := z + 719468
  let era := z' / 146097
  let doe := z' % 146097
  let yoe := (doe - doe / 1460 + doe / 36524 - doe / 146097) / 365
  let y := yoe + era * 400
  let doy := doe - (365 * yoe + yoe / 4 - yoe / 100)
  let mp := (5 * doy + 2) / 153
  let d := doy - (153 * mp + 2) / 5 + 1
  let m := if mp < 10 then mp + 3 else mp - 9
  ⟨if m ≤ 2 then y + 1 else y, m, d⟩

/-- Days since 1970-01-01 of a civil date (valid for dates from 1970 on). -/
def daysFromCivil (dt : SparkDate) : Nat :=
  let y := if dt.month ≤ 2 then dt.year - 1 else dt.year
  let era := y / 400
  let yoe := y % 400
  let mp := if 2 < dt.month then dt.month - 3 else dt.month + 9
  let doy := (153 * mp + 2) / 5 + dt.day - 1
  let doe := yoe * 365 + yoe / 4 - yoe / 100 + doy
  era * 146097 + doe - 719468

/-- Full English weekday name of a date (1970-01-01 was a Thursday). -/
def weekdayName (dt : SparkDate) : String :=
  match daysFromCivil dt % 7 with
  | 0 => "Thursday"
  | 1 => "Friday"
  | 2 => "Saturday"
  | 3 => "Sunday"
  | 4 => "Monday"
  | 5 => "Tuesday"
  | _ => "Wednesday"

/-- ISO weekday number of a date (Monday = 1 .. Sunday = 7). -/
def isoWeekdayNum (dt : SparkDate) : Nat :=
  (daysFromCivil dt + 3) % 7 + 1

/-- Number of days in the year strictly before month `m` (1-12). -/
def daysBeforeMonth (leap : Bool) (m : Nat) : Nat :=
  let t := [0, 31, 59, 90, 120, 151, 181, 212, 243, 273, 304, 334].getD (m - 1) 0
  if leap && 3 ≤ m then t + 1 else t

/-- Ordinal day of the year of a date (Jan 1 = 1). -/
def dayOfYear (dt : SparkDate) : Nat :=
  daysBeforeMonth (isLeap dt.year) dt.month + dt.day

/-- Number of ISO-8601 weeks in a year: 53 iff Jan 1 is a Thursday, or the
year is leap and Jan 1 is a Wednesday; otherwise 52. -/
def weeksInYear (y : Nat) : Nat :=
  let wd := isoWeekdayNum ⟨y, 1, 1⟩
  if wd == 4 || (isLeap y && wd == 3) then 53 else 52

/-- ISO-8601 week-of-year of a date (the semantics of Spark `weekofyear`). -/
def weekOfYear (dt : SparkDate) : Nat :=
  let w := (dayOfYear dt + 10 - isoWeekdayNum dt) / 7
  if w = 0 then weeksInYear (dt.year - 1)
  else if w = 53 && weeksInYear dt.year == 52 then 1
  else w

/-! ### Spark date/time column functions (null-propagating) -/

/-- Spark `hour` applied to a DATE column: the date is cast to a timestamp at
midnight before the hour is extracted, so the result is 0 on every non-null
date.  (This is the column type `etl.py` line 74 produces: the udf is declared
`DateType`, which truncates the Python datetime to a calendar date.) -/
def hourOfDate (d : Option SparkDate) : Option Nat :=
  d.map fun _ => 0

/-- Spark `dayofmonth` on a DATE column. -/
def dayofmonthOfDate (d : Option SparkDate) : Option Nat :=
  d.map SparkDate.day

/-- Spark `weekofyear` (ISO week) on a DATE column. -/
def weekofyearOfDate (d : Option SparkDate) : Option Nat :=
  d.map weekOfYear

/-- Spark `month` on a DATE column. -/
def monthOfDate (d : Option SparkDate) : Option Nat :=
  d.map SparkDate.month

/-- Spark `year` on a DATE column. -/
def yearOfDate (d : Option SparkDate) : Option Nat :=
  d.map SparkDate.year

/-- Spark `date_format(_, 'EEEE')` on a DATE column: full weekday name. -/
def dateFormatEEEE (d : Option SparkDate) : Option String :=
  d.map weekdayName

/-! ### Raw input records -/

/-- One raw song-catalog JSON record (`song_data/*/*/*/*.json`). -/
structure SongRecord where
  song_id : String
  title : String
  artist_id : String
  artist_name : String
  artist_location : String
  artist_latitude : Rat
  artist_longitude : Rat
  year : Nat
  duration : Rat
deriving DecidableEq

/-- One raw session-event JSON record (`log_data/*/*/*.json`). -/
structure Event where
  page : String
  userId : String
  firstName : String
  lastName : String
  gender : String
  level : String
  ts : Nat
  song : String
  artist : String
  length : Rat
  sessionId : Nat
  location : String
  userAgent : String
deriving DecidableEq

/-! ### Derived table rows -/

/-- A row of the `songs` table (line 33). -/
structure SongsRow where
  song_id : String
  title : String
  artist_id : String
  year : Nat
  duration : Rat
deriving DecidableEq

/-- A row of the `artists` table (lines 39-40). -/
structure ArtistsRow where
  artist_id : String
  name : String
  location : String
  latitude : Rat
  longitude : Rat
deriving DecidableEq

/-- A row of the `users` table (lines 63-64). -/
structure UserRow where
  user_id : String
  first_name : String
  last_name : String
  gender : String
  level : String
deriving DecidableEq

/-- A row of the `time` table (line 86).  The derived columns are `Option`s
because the `timestamp` column itself is nullable (32-bit cast, line 70). -/
structure TimeRow where
  start_time : Option Nat
  hour : Option Nat
  day : Option Nat
  week : Option Nat
  month : Option Nat
  year : Option Nat
  weekday : Option String
deriving DecidableEq

/-- A row of the `songplays` fact table (lines 95-97). -/
structure SongplayRow where
  start_time : Option Nat
  user_id : String
  level : String
  song_id : Option String
  artist_id : Option String
  session_id : Nat
  location : String
  user_agent : String
  year : Option Nat
  month : Option Nat
deriving DecidableEq

/-! ### Catalog Extractor (`process_song_data`) -/

/-- Projection of a catalog record onto the `songs` schema (line 33). -/
def projSong (s : SongRecord) : SongsRow :=
  ⟨s.song_id, s.title, s.artist_id, s.year, s.duration⟩

/-- `songs_table` (line 33): project then `dropDuplicates`.  Spark leaves the
choice of surviving duplicate unspecified; `List.dedup` is one such choice. -/
def songsTable (catalog : List SongRecord) : List SongsRow :=
  (catalog.map projSong).dedup

/-- Projection of a catalog record onto the `artists` schema (lines 39-40). -/
def projArtist (s : SongRecord) : ArtistsRow :=
  ⟨s.artist_id, s.artist_name, s.artist_location, s.artist_latitude, s.artist_longitude⟩

/-- `artists_table` (lines 39-40): project then `dropDuplicates`. -/
def artistsTable (catalog : List SongRecord) : List ArtistsRow :=
  (catalog.map projArtist).dedup

/-! ### Event Extractor (`process_log_data`) -/

/-- Line 54: `df.where(df.page == 'NextSong')`. -/
def filterNextSong (events : List Event) : List Event :=
  events.filter fun e => e.page == "NextSong"

/-- The row selected by `row_number() == 1` over the window
`partitionBy('userId').orderBy(desc('ts'))` (lines 57-63), restricted to one
user's partition: a row with the maximum `ts`.  Spark's ordering among equal
`ts` values is unspecified; this model keeps the first such row in list
order. -/
def latest : List Event → Option Event
  | [] => none
  | e :: es =>
    match latest es with
    | none => some e
    | some m => if m.ts > e.ts then some m else some e

/-- Projection of an event onto the `users` schema (lines 63-64). -/
def projUser (e : Event) : UserRow :=
  ⟨e.userId, e.firstName, e.lastName, e.gender, e.level⟩

/-- `users_table` built from the already-filtered events: one row per distinct
`userId`, taken from that user's maximum-`ts` row (lines 57-64). -/
def usersFrom (f : List Event) : List UserRow :=
  ((f.map fun e => e.userId).dedup).filterMap
    fun u => (latest (f.filter fun e => e.userId == u)).map projUser

/-- `users_table` (lines 54-64). -/
def usersTable (events : List Event) : List UserRow :=
  usersFrom (filterNextSong events)

/-- Line 70: `udf(lambda ts_ms: int(int(ts_ms) / 1000), IntegerType())`.
For every value whose quotient fits in a signed 32-bit integer the Python
expression equals truncating division by 1000 (the float quotient is within
2^-21 of the exact value, so truncation cannot cross an integer boundary);
a quotient outside the `IntegerType` range is serialized as null. -/
def getTimestamp (ts : Nat) : Option Nat :=
  if ts / 1000 ≤ 2147483647 then some (ts / 1000) else none

/-- The civil date (UTC model) containing an epoch-seconds instant. -/
def dateOfEpochSeconds (s : Nat) : SparkDate :=
  civilFromDays (s / 86400)

/-- Line 74: `udf(lambda ts: datetime.fromtimestamp(ts), DateType())`: the
datetime is truncated to its calendar date by the `DateType` declaration.
Modelled as null-propagating on a null `timestamp` (on real Spark a null
input makes the lambda raise, aborting the job; no table is produced then). -/
def getDatetime (t : Option Nat) : Option SparkDate :=
  t.map dateOfEpochSeconds

/-- The `time`-schema projection of one filtered event after the
`withColumn` enrichments of lines 70-86. -/
def mkTimeRow (e : Event) : TimeRow :=
  let t := getTimestamp e.ts
  let d := getDatetime t
  { start_time := t
    hour := hourOfDate d
    day := dayofmonthOfDate d
    week := weekofyearOfDate d
    month := monthOfDate d
    year := yearOfDate d
    weekday := dateFormatEEEE d }

/-- `time_table` built from the already-filtered events (line 86):
project then `dropDuplicates`. -/
def timeFrom (f : List Event) : List TimeRow :=
  (f.map mkTimeRow).dedup

/-- `time_table` (lines 54, 70-86). -/
def timeTable (events : List Event) : List TimeRow :=
  timeFrom (filterNextSong events)

/-! ### Fact Builder (`process_log_data`, lines 92-97) -/

/-- The join condition of line 95:
`(df.song == song_df.title) & (df.artist == song_df.artist_name) &
(df.length == song_df.duration)`. -/
def matchesSong (e : Event) (s : SongRecord) : Bool :=
  e.song == s.title && e.artist == s.artist_name && e.length == s.duration

/-- The `songplays` projection of lines 96-97 applied to one event and its
(optional) matched catalog record. -/
def mkSongplay (e : Event) (ids : Option (String × String)) : SongplayRow :=
  let t := getTimestamp e.ts
  let d := getDatetime t
  { start_time := t
    user_id := e.userId
    level := e.level
    song_id := ids.map fun p => p.1
    artist_id := ids.map fun p => p.2
    session_id := e.sessionId
    location := e.location
    user_agent := e.userAgent
    year := yearOfDate d
    month := monthOfDate d }

/-- The left-outer-join rows produced by one event (line 95): one row per
matching catalog record, or a single row with null `song_id`/`artist_id`
when no record matches. -/
def songplayRowsFor (catalog : List SongRecord) (e : Event) : List SongplayRow :=
  match catalog.filter (matchesSong e) with
  | [] => [mkSongplay e none]
  | ms => ms.map fun s => mkSongplay e (some (s.song_id, s.artist_id))

/-- `songplays_table` built from the already-filtered events. -/
def songplaysFrom (catalog : List SongRecord) (f : List Event) : List SongplayRow :=
  f.flatMap (songplayRowsFor catalog)

/-- `songplays_table` (lines 54, 92-97): left join of the filtered events
against the raw catalog (re-read from the input, not deduplicated). -/
def songplaysTable (catalog : List SongRecord) (events : List Event) : List SongplayRow :=
  songplaysFrom catalog (filterNextSong events)

/-! ### Table Sink (spec §4.4)

The physical persistence (parquet files, overwrite of the output location,
one subdirectory per partition-key value) is storage I/O performed by Spark,
outside the transformation logic of `src/etl.py`; the write calls of lines
36, 43, 67, 89 and 100 only configure it.  The sink contract is therefore
modelled from the spec. -/

/-- Modelled from the spec: the partitioned layout of a written table (§4.4,
§6) — rows are grouped into one group per distinct partition-key value, the
layout materialized as one `key=value` directory per group. -/
def partitionBy {α κ : Type} [DecidableEq κ] (key : α → κ) (rows : List α) :
    List (κ × List α) :=
  ((rows.map key).dedup).map fun k => (k, rows.filter fun r => decide (key r = k))

/-- Modelled from the spec: overwrite-mode persistence (§4.4) — the content
previously stored at the target location is fully replaced by the new table. -/
def overwriteWrite {τ : Type} (store : String → Option τ) (loc : String) (t : τ) :
    String → Option τ :=
  fun l => if l = loc then some t else store l

/-- Line 36: `songs_table` written partitioned by `("year", "artist_id")`. -/
def writeSongsTable (catalog : List SongRecord) : List ((Nat × String) × List SongsRow) :=
  partitionBy (fun r => (r.year, r.artist_id)) (songsTable catalog)

/-- Line 89: `time_table` written partitioned by `("year", "month")`. -/
def writeTimeTable (events : List Event) :
    List ((Option Nat × Option Nat) × List TimeRow) :=
  partitionBy (fun r => (r.year, r.month)) (timeTable events)

/-- Line 100: `songplays_table` written partitioned by `("year", "month")`. -/
def writeSongplaysTable (catalog : List SongRecord) (events : List Event) :
    List ((Option Nat × Option Nat) × List SongplayRow) :=
  partitionBy (fun r => (r.year, r.month)) (songplaysTable catalog events)

/-! ### Concrete fixtures -/

/-- The catalog record of the end-to-end scenario in spec §8. -/
def scenarioCatalog : List SongRecord :=
  [{ song_id := "S1", title := "Test", artist_id := "A1", artist_name := "Artist",
     artist_location := "NYC", artist_latitude := 1, artist_longitude := 2,
     year := 2000, duration := 200 }]

/-- The event of the end-to-end scenario in spec §8. -/
def scenarioEvents : List Event :=
  [{ page := "NextSong", userId := "1", firstName := "A", lastName := "B",
     gender := "M", level := "free", ts := 946684800000, song := "Test",
     artist := "Artist", length := 200, sessionId := 1, location := "NYC",
     userAgent := "UA" }]

/-- An event carrying the timestamp of the decomposition example in spec §8
(`ts` = 1542837407796 epoch milliseconds = epoch second 1542837407, which is
2018-11-21 21:56:47 UTC, a Wednesday in ISO week 47). -/
def decompositionEvent : Event :=
  { page := "NextSong", userId := "2", firstName := "C", lastName := "D",
    gender := "F", level := "paid", ts := 1542837407796, song := "X",
    artist := "Y", length := 3, sessionId := 5, location := "SF",
    userAgent := "UA2" }

/-- An event dated after 2038-01-19: its epoch-seconds value 2200000000
exceeds the signed 32-bit maximum 2147483647. -/
def overflowEvent : Event :=
  { page := "NextSong", userId := "9", firstName := "F", lastName := "L",
    gender := "F", level := "paid", ts := 2200000000000, song := "S",
    artist := "A", length := 1, sessionId := 2, location := "L",
    userAgent := "U" }

/-- A catalog with two records sharing title, artist name and duration
(distinct `song_id`s): both match any event playing that song. -/
def dupCatalog : List SongRecord :=
  [{ song_id := "S1", title := "T", artist_id := "A1", artist_name := "A",
     artist_location := "X", artist_latitude := 0, artist_longitude := 0,
     year := 1999, duration := 1 },
   { song_id := "S2", title := "T", artist_id := "A2", artist_name := "A",
     artist_location := "Y", artist_latitude := 0, artist_longitude := 0,
     year := 2001, duration := 1 }]

/-- A single NextSong event playing the song duplicated in `dupCatalog`. -/
def dupEvents : List Event :=
  [{ page := "NextSong", userId := "7", firstName := "G", lastName := "H",
     gender := "M", level := "free", ts := 1000, song := "T", artist := "A",
     length := 1, sessionId := 3, location := "Z", userAgent := "U7" }]

/-- The two events of the users example in spec §8: user 10 at `ts` 100 with
level free, then at `ts` 500 with level paid. -/
def levelEvents : List Event :=
  [{ page := "NextSong", userId := "10", firstName := "P", lastName := "Q",
     gender := "F", level := "free", ts := 100, song := "S0", artist := "B0",
     length := 2, sessionId := 11, location := "W", userAgent := "U10" },
   { page := "NextSong", userId := "10", firstName := "P", lastName := "Q",
     gender := "F", level := "paid", ts := 500, song := "S0", artist := "B0",
     length := 2, sessionId := 12, location := "W", userAgent := "U10" }]

/-- The `time` row derived from `decompositionEvent` (the `hour` column is 0
because the udf of line 74 truncates the datetime to a date). -/
def timeRow2018 : TimeRow :=
  { start_time := some 1542837407, hour := some 0, day := some 21,
    week := some 47, month := some 11, year := some 2018,
    weekday := some "Wednesday" }

/-! ### Spec-side definitions (for comparison with the embedded code) -/

/-- The hour-of-day of an epoch-seconds instant (UTC), as the calendar
decomposition in spec §4.2/§8 prescribes for the `hour` column. -/
def specHourOfEpochSeconds (s : Nat) : Nat :=
  s % 86400 / 3600

/-- Re-running the Catalog Extractor on its own `songs` output (the claim of
spec §8): the `selectExpr` projection of the already-projected columns is the
identity, followed by `dropDuplicates`. -/
def reextractSongs (l : List SongsRow) : List SongsRow :=
  (l.map fun r => r).dedup

/-- Re-running the Catalog Extractor on its own `artists` output. -/
def reextractArtists (l : List ArtistsRow) : List ArtistsRow :=
  (l.map fun r => r).dedup

/-! ### Helper lemmas -/

theorem filterNextSong_idem (l : List Event) :
    filterNextSong (filterNextSong l) = filterNextSong l := by
  simp [filterNextSong, List.filter_filter]

theorem latest_eq_none {l : List Event} (h : latest l = none) : l = [] := by
  cases l with
  | nil => rfl
  | cons a as =>
    exfalso
    simp only [latest] at h
    split at h
    · exact Option.noConfusion h
    · split at h <;> exact Option.noConfusion h

theorem latest_isSome {l : List Event} (h : l ≠ []) : ∃ m, latest l = some m := by
  cases hl : latest l with
  | none => exact absurd (latest_eq_none hl) h
  | some m => exact ⟨m, rfl⟩

theorem latest_mem {l : List Event} {m : Event} (h : latest l = some m) : m ∈ l := by
  induction l generalizing m with
  | nil => simp [latest] at h
  | cons a as ih =>
    simp only [latest] at h
    split at h
    · cases h
      exact List.mem_cons_self _ _
    · rename_i b heq
      split at h
      · cases h
        exact List.mem_cons_of_mem a (ih heq)
      · cases h
        exact List.mem_cons_self _ _

theorem latest_le {l : List Event} {m : Event} (h : latest l = some m) :
    ∀ x ∈ l, x.ts ≤ m.ts := by
  induction l generalizing m with
  | nil => simp [latest] at h
  | cons a as ih =>
    intro x hx
    simp only [latest] at h
    rcases List.mem_cons.mp hx with rfl | hxas
    · split at h
      · cases h
        exact Nat.le_refl _
      · rename_i b heq
        split at h
        · rename_i hts
          cases h
          exact Nat.le_of_lt hts
        · cases h
          exact Nat.le_refl _
    · split at h
      · rename_i heq
        rw [latest_eq_none heq] at hxas
        simp at hxas
      · rename_i b heq
        have hxb : x.ts ≤ b.ts := ih heq x hxas
        split at h
        · cases h
          exact hxb
        · rename_i hts
          cases h
          exact Nat.le_trans hxb (Nat.le_of_not_lt hts)

theorem countP_beq_eq_one_of_nodup {us : List String} (hn : us.Nodup) {u : String}
    (hu : u ∈ us) : us.countP (fun v => v == u) = 1 := by
  induction us with
  | nil => simp at hu
  | cons v vs ih =>
    rw [List.countP_cons]
    rcases List.mem_cons.mp hu with rfl | hmem
    · have hnotin : u ∉ vs := (List.nodup_cons.mp hn).1
      have hz : vs.countP (fun w => w == u) = 0 :=
        List.countP_eq_zero.mpr fun w hw hwv => hnotin ((beq_iff_eq.mp hwv) ▸ hw)
      simp [hz]
    · have hvne : v ≠ u := by
        rintro rfl
        exact (List.nodup_cons.mp hn).1 hmem
      have hrec := ih (List.nodup_cons.mp hn).2 hmem
      simp [hrec, hvne]

theorem countP_eq_one_of_unique {α : Type} {p : α → Bool} {l : List α} (hn : l.Nodup)
    {a : α} (ha : a ∈ l) (hp : p a = true)
    (huniq : ∀ x ∈ l, p x = true → x = a) :
    l.countP p = 1 := by
  induction l with
  | nil => simp at ha
  | cons b bs ih =>
    rw [List.countP_cons]
    rcases List.mem_cons.mp ha with rfl | hmem
    · have hz : bs.countP p = 0 :=
        List.countP_eq_zero.mpr fun x hx hpx =>
          (List.nodup_cons.mp hn).1 ((huniq x (List.mem_cons_of_mem _ hx) hpx) ▸ hx)
      simp [hz, hp]
    · have hbp : ¬ p b = true := fun hpb =>
        (List.nodup_cons.mp hn).1 ((huniq b (List.mem_cons_self _ _) hpb) ▸ hmem)
      have hrec := ih (List.nodup_cons.mp hn).2 hmem
        (fun x hx hpx => huniq x (List.mem_cons_of_mem _ hx) hpx)
      simp [hrec, hbp]

theorem songplayRowsFor_length_one (catalog : List SongRecord) (e : Event)
    (h : (catalog.filter (matchesSong e)).length ≤ 1) :
    (songplayRowsFor catalog e).length = 1 := by
  unfold songplayRowsFor
  cases hm : catalog.filter (matchesSong e) with
  | nil => rfl
  | cons s ss =>
    rw [hm] at h
    simp only [List.length_map, List.length_cons] at h ⊢
    omega

theorem songplayRowsFor_null_count (catalog : List SongRecord) (e : Event) :
    (songplayRowsFor catalog e).countP
        (fun r => r.song_id == none && r.artist_id == none)
      = if (catalog.filter (matchesSong e)).isEmpty then 1 else 0 := by
  unfold songplayRowsFor
  cases hm : catalog.filter (matchesSong e) with
  | nil => rfl
  | cons s ss =>
    simp only [List.isEmpty_cons, if_neg Bool.false_ne_true]
    refine List.countP_eq_zero.mpr fun r hr => ?_
    obtain ⟨a, _, rfl⟩ := List.mem_map.mp hr
    simp [mkSongplay]

theorem songplaysFrom_length (catalog : List SongRecord) :
    ∀ f : List Event, (∀ e ∈ f, (catalog.filter (matchesSong e)).length ≤ 1) →
      (songplaysFrom catalog f).length = f.length
  | [], _ => rfl
  | e :: es, h => by
    have h1 := songplayRowsFor_length_one catalog e (h e (List.mem_cons_self e es))
    have ih := songplaysFrom_length catalog es fun x hx => h x (List.mem_cons_of_mem e hx)
    unfold songplaysFrom at ih ⊢
    simp only [List.flatMap_cons, List.length_append, List.length_cons]
    omega

theorem songplaysFrom_null_count (catalog : List SongRecord) :
    ∀ f : List Event,
      (songplaysFrom catalog f).countP
          (fun r => r.song_id == none && r.artist_id == none)
        = f.countP fun e => (catalog.filter (matchesSong e)).isEmpty
  | [] => rfl
  | e :: es => by
    have ih := songplaysFrom_null_count catalog es
    unfold songplaysFrom at ih ⊢
    simp only [List.flatMap_cons, List.countP_append, List.countP_cons, ih,
      songplayRowsFor_null_count]
    omega

theorem mkTimeRow_congr {e1 e2 : Event} (h : getTimestamp e1.ts = getTimestamp e2.ts) :
    mkTimeRow e1 = mkTimeRow e2 := by
  unfold mkTimeRow
  rw [h]

theorem mkTimeRow_start_time (e : Event) :
    (mkTimeRow e).start_time = getTimestamp e.ts := rfl

theorem usersFrom_countP (f : List Event) (u : String) :
    ∀ us : List String, (∀ v ∈ us, ∃ x ∈ f, x.userId = v) →
      (us.filterMap fun v =>
          (latest (f.filter fun e => e.userId == v)).map projUser).countP
          (fun r => r.user_id == u)
        = us.countP fun v => v == u
  | [], _ => rfl
  | v :: vs, h => by
    obtain ⟨x, hxf, hxv⟩ := h v (List.mem_cons_self v vs)
    have hne : f.filter (fun e => e.userId == v) ≠ [] := by
      intro hnil
      have hxmem : x ∈ f.filter fun e => e.userId == v :=
        List.mem_filter.mpr ⟨hxf, by simp [hxv]⟩
      rw [hnil] at hxmem
      simp at hxmem
    obtain ⟨m, hm⟩ := latest_isSome hne
    have hmv : m.userId = v := by
      have hmem := latest_mem hm
      simpa using (List.mem_filter.mp hmem).2
    have ih := usersFrom_countP f u vs fun w hw => h w (List.mem_cons_of_mem v hw)
    simp only [List.filterMap_cons, hm, Option.map_some']
    rw [List.countP_cons, ih, List.countP_cons]
    have hrow : ((projUser m).user_id == u) = (v == u) := by
      simp only [projUser, hmv]
    rw [hrow]

theorem partitionBy_key_eq {α κ : Type} [DecidableEq κ] {key : α → κ} {rows : List α}
    {p : κ × List α} (hp : p ∈ partitionBy key rows) {r : α} (hr : r ∈ p.2) :
    key r = p.1 := by
  unfold partitionBy at hp
  obtain ⟨k, _, rfl⟩ := List.mem_map.mp hp
  exact of_decide_eq_true (List.mem_filter.mp hr).2

/-! ### The claims -/

/-- Claim C1 (counterexample): the number of `songplays` rows does not equal
the number of filtered event rows for every input — with `dupCatalog` (two
catalog records sharing title, artist name and duration) the single matching
NextSong event of `dupEvents` joins against both records and yields two fact
rows. -/
theorem songplays_cardinality_cex :
    ¬ (songplaysTable dupCatalog dupEvents).length
        = (filterNextSong dupEvents).length := by
  decide

/-- Claim C1 (amended): when every filtered event matches at most one catalog
record, the number of rows in `songplays` equals the number of filtered
(`page == "NextSong"`) event rows (in general an event matching k > 1 catalog
records yields k rows); and unconditionally, every filtered event with no
matching catalog record yields exactly one `songplays` row with null
`song_id` and null `artist_id` rather than being dropped: the null-id rows
are as many as the unmatched events. -/
theorem songplays_left_outer_cardinality (catalog : List SongRecord)
    (events : List Event) :
    ((∀ e ∈ filterNextSong events, (catalog.filter (matchesSong e)).length ≤ 1) →
      (songplaysTable catalog events).length = (filterNextSong events).length) ∧
    (songplaysTable catalog events).countP
        (fun r => r.song_id == none && r.artist_id == none)
      = (filterNextSong events).countP
          (fun e => (catalog.filter (matchesSong e)).isEmpty) :=
  ⟨fun h => songplaysFrom_length catalog _ h, songplaysFrom_null_count catalog _⟩

theorem songplays_left_outer_cardinality_witness :
    (songplaysTable scenarioCatalog scenarioEvents).length
      = (filterNextSong scenarioEvents).length :=
  (songplays_left_outer_cardinality scenarioCatalog scenarioEvents).1 (by decide)

/-- Claim C2: for every `user_id` appearing in at least one NextSong event,
the `users` table contains exactly one row with that `user_id`, and that row
is the projection (level, first name, last name, gender) of an event of that
user having the maximum `ts` among the user's NextSong events. -/
theorem users_latest_row (events : List Event) (u : String)
    (hu : u ∈ (filterNextSong events).map fun e => e.userId) :
    (usersTable events).countP (fun r => r.user_id == u) = 1 ∧
    ∃ e, e ∈ filterNextSong events ∧ e.userId = u ∧
      (∀ x ∈ filterNextSong events, x.userId = u → x.ts ≤ e.ts) ∧
      projUser e ∈ usersTable events := by
  constructor
  · have hforall : ∀ v ∈ ((filterNextSong events).map fun e => e.userId).dedup,
        ∃ x ∈ filterNextSong events, x.userId = v := by
      intro v hv
      obtain ⟨x, hx, rfl⟩ := List.mem_map.mp (List.mem_dedup.mp hv)
      exact ⟨x, hx, rfl⟩
    have hcount := usersFrom_countP (filterNextSong events) u _ hforall
    have hmem : u ∈ ((filterNextSong events).map fun e => e.userId).dedup :=
      List.mem_dedup.mpr hu
    calc (usersTable events).countP (fun r => r.user_id == u)
        = (((filterNextSong events).map fun e => e.userId).dedup).countP
            (fun v => v == u) := hcount
      _ = 1 := countP_beq_eq_one_of_nodup (List.nodup_dedup _) hmem
  · obtain ⟨x, hxf, hxu⟩ : ∃ x ∈ filterNextSong events, x.userId = u := by
      obtain ⟨x, hx, rfl⟩ := List.mem_map.mp hu
      exact ⟨x, hx, rfl⟩
    have hne : (filterNextSong events).filter (fun e => e.userId == u) ≠ [] := by
      intro hnil
      have hxmem : x ∈ (filterNextSong events).filter fun e => e.userId == u :=
        List.mem_filter.mpr ⟨hxf, by simp [hxu]⟩
      rw [hnil] at hxmem
      simp at hxmem
    obtain ⟨m, hm⟩ := latest_isSome hne
    have hmmem := latest_mem hm
    have hmf : m ∈ filterNextSong events := (List.mem_filter.mp hmmem).1
    have hmu : m.userId = u := by simpa using (List.mem_filter.mp hmmem).2
    refine ⟨m, hmf, hmu, ?_, ?_⟩
    · intro y hy hyu
      exact latest_le hm y (List.mem_filter.mpr ⟨hy, by simp [hyu]⟩)
    · show projUser m ∈ usersFrom (filterNextSong events)
      refine List.mem_filterMap.mpr ⟨u, List.mem_dedup.mpr hu, ?_⟩
      rw [hm]
      rfl

theorem users_latest_row_witness :
    (usersTable levelEvents).countP (fun r => r.user_id == "10") = 1 :=
  (users_latest_row levelEvents "10" (by decide)).1

/-- Claim C7: the `time` table contains no duplicate rows, and exactly one
row per distinct derived epoch-seconds timestamp among the NextSong events:
`start_time` determines every derived column, so all events falling in the
same second collapse to a single row. -/
theorem time_unique_start_time (events : List Event) (e : Event)
    (he : e ∈ filterNextSong events) :
    (timeTable events).Nodup ∧
    (timeTable events).countP (fun r => r.start_time == getTimestamp e.ts) = 1 := by
  refine ⟨List.nodup_dedup _, ?_⟩
  have hmem : mkTimeRow e ∈ timeTable events :=
    List.mem_dedup.mpr (List.mem_map_of_mem _ he)
  refine countP_eq_one_of_unique (List.nodup_dedup _) hmem ?_ ?_
  · rw [mkTimeRow_start_time]
    exact beq_self_eq_true _
  · intro r hr hp
    obtain ⟨e', _, rfl⟩ := List.mem_map.mp (List.mem_dedup.mp hr)
    rw [mkTimeRow_start_time] at hp
    exact mkTimeRow_congr (beq_iff_eq.mp hp)

theorem time_unique_start_time_witness :
    (timeTable [decompositionEvent]).countP
      (fun r => r.start_time == getTimestamp decompositionEvent.ts) = 1 :=
  (time_unique_start_time [decompositionEvent] decompositionEvent (by decide)).2

/-- Claim C9: each table is persisted with overwrite semantics and the
partition keys the code configures — `songs` by (`year`, `artist_id`)
(line 36), `time` and `songplays` by (`year`, `month`) (lines 89, 100),
`artists` and `users` unpartitioned (lines 43, 67) — and every row grouped
under a partition-key value (Y, M) for `time` and `songplays` (resp.
(Y, A) for `songs`) carries exactly that `year` and `month` (resp. `year`
and `artist_id`) in its data; overwriting replaces whatever was previously
stored at the target location. -/
theorem sink_partition_correctness (catalog : List SongRecord) (events : List Event) :
    (∀ p ∈ writeTimeTable events, ∀ r ∈ p.2, r.year = p.1.1 ∧ r.month = p.1.2) ∧
    (∀ p ∈ writeSongplaysTable catalog events, ∀ r ∈ p.2,
      r.year = p.1.1 ∧ r.month = p.1.2) ∧
    (∀ p ∈ writeSongsTable catalog, ∀ r ∈ p.2,
      r.year = p.1.1 ∧ r.artist_id = p.1.2) ∧
    (∀ (store : String → Option (List TimeRow)) loc,
      overwriteWrite store loc (timeTable events) loc = some (timeTable events)) := by
  refine ⟨?_, ?_, ?_, ?_⟩
  · intro p hp r hr
    have h := partitionBy_key_eq hp hr
    exact ⟨congrArg Prod.fst h, congrArg Prod.snd h⟩
  · intro p hp r hr
    have h := partitionBy_key_eq hp hr
    exact ⟨congrArg Prod.fst h, congrArg Prod.snd h⟩
  · intro p hp r hr
    have h := partitionBy_key_eq hp hr
    exact ⟨congrArg Prod.fst h, congrArg Prod.snd h⟩
  · intro store loc
    simp [overwriteWrite]

theorem sink_partition_correctness_witness :
    timeRow2018.year = some 2018 ∧ timeRow2018.month = some 11 :=
  (sink_partition_correctness [] [decompositionEvent]).1
    ((some 2018, some 11), [timeRow2018]) (by decide) timeRow2018 (by decide)

/-- Claim C4: given exactly the one catalog record and the one NextSong event
of the end-to-end scenario (title "Test", artist "Artist", length 200.0,
`ts` = 946684800000), the resulting `songplays` table has exactly one row,
with `song_id = "S1"`, `artist_id = "A1"` and `start_time = 946684800`. -/
theorem scenario_songplays_row :
    songplaysTable scenarioCatalog scenarioEvents =
      [{ start_time := some 946684800, user_id := "1", level := "free",
         song_id := some "S1", artist_id := some "A1", session_id := 1,
         location := "NYC", user_agent := "UA", year := some 2000,
         month := some 1 }] := by
  decide

/-- Claim C5 (counterexample): the derived timestamp does not equal `ts`
divided by 1000 for every event row — at `ts` = 2200000000000 ms the quotient
2200000000 exceeds the declared 32-bit `IntegerType` range and the column is
null instead. -/
theorem get_timestamp_div_cex :
    getTimestamp 2200000000000 ≠ some (2200000000000 / 1000) := by
  decide

/-- Claim C5 (amended): for every event row whose epoch-seconds quotient fits
the signed 32-bit range, the derived timestamp equals `ts` (epoch ms) divided
by 1000 with integer truncation, not rounding; in particular
`ts` = 1542837407796 yields timestamp 1542837407 (see the witness). -/
theorem get_timestamp_div (ts : Nat) (h : ts / 1000 ≤ 2147483647) :
    getTimestamp ts = some (ts / 1000) := by
  unfold getTimestamp
  rw [if_pos h]

theorem get_timestamp_div_witness :
    getTimestamp 1542837407796 = some 1542837407 :=
  get_timestamp_div 1542837407796 (by decide)

/-- Claim C10: the derived timestamp is produced as a signed 32-bit integer
(`IntegerType`, line 70): for every event whose epoch-seconds value exceeds
2147483647 the value is not representable, and the timestamp — hence the
`start_time` of its `time` row — is null rather than the epoch-seconds
value. -/
theorem start_time_int32_overflow (e : Event) (h : 2147483647 < e.ts / 1000) :
    getTimestamp e.ts = none ∧ (mkTimeRow e).start_time = none := by
  have hnone : getTimestamp e.ts = none := by
    unfold getTimestamp
    rw [if_neg (by omega)]
  exact ⟨hnone, hnone⟩

theorem start_time_int32_overflow_witness :
    getTimestamp overflowEvent.ts = none ∧
      (mkTimeRow overflowEvent).start_time = none :=
  start_time_int32_overflow overflowEvent (by decide)

/-- Claim C3 (the code at the failing input): for the event with
`ts` = 1542837407796 ms the derived `day`, `week`, `month`, `year` and
`weekday` match the calendar decomposition of epoch second 1542837407
(2018-11-21, ISO week 47, Wednesday), but the derived `hour` is 0, not the
hour-of-day 21: the udf of line 74 is declared `DateType`, so the datetime it
builds (line 73 comment: "create datetime column") is truncated to a calendar
date before `hour` is applied. -/
theorem time_decomposition_hour_bug :
    mkTimeRow decompositionEvent = timeRow2018 ∧
    specHourOfEpochSeconds 1542837407 = 21 ∧
    (mkTimeRow decompositionEvent).hour ≠
      some (specHourOfEpochSeconds 1542837407) := by
  refine ⟨by decide, by decide, by decide⟩

/-- Claim C6: for every input catalog the `songs` and `artists` tables contain
no duplicate rows, and applying the projection-plus-deduplication again to
their own output returns it unchanged (extraction is a fixed point on its own
output). -/
theorem catalog_extraction_fixed_point (catalog : List SongRecord) :
    (songsTable catalog).Nodup ∧
    reextractSongs (songsTable catalog) = songsTable catalog ∧
    (artistsTable catalog).Nodup ∧
    reextractArtists (artistsTable catalog) = artistsTable catalog := by
  refine ⟨List.nodup_dedup _, ?_, List.nodup_dedup _, ?_⟩ <;>
    simp [reextractSongs, reextractArtists] <;>
    exact (List.nodup_dedup _).dedup

/-- Claim C8: the `users`, `time` and `songplays` tables are derived
exclusively from event rows whose `page` equals "NextSong" — restricting the
input to those rows leaves all three outputs unchanged, so no row with any
other `page` value contributes to them. -/
theorem outputs_only_from_nextsong (catalog : List SongRecord) (events : List Event) :
    usersTable (filterNextSong events) = usersTable events ∧
    timeTable (filterNextSong events) = timeTable events ∧
    songplaysTable catalog (filterNextSong events) = songplaysTable catalog events := by
  unfold usersTable timeTable songplaysTable
  rw [filterNextSong_idem]
  exact ⟨rfl, rfl, rfl⟩

end Etl
